import Mathlib

/-!
Shallow embedding of the capynet TrueType font parser (src/font.rs together
with the error type of src/error.rs).

Modelling conventions:
- unsigned machine integers (u8/u16/u32/usize) are Nat, with explicit
  wraparound (mod 2 to the width) exactly where the Rust release build wraps;
- signed i16 values are Int, produced from the two raw bytes by toSigned16,
  and accumulated with wrap16 (two's-complement wraparound);
- a Rust Result together with the possibility of a panic (a todo macro, a
  slice index out of bounds) is the POut type below; a panic is POut.crash;
- the byte parser (struct ByteParser) holds an immutable buffer and a mutable
  offset; the buffer never changes, so every parsing function takes the
  buffer as a fixed parameter and threads only the offset, returning the
  offset unchanged on failure just as the Rust methods leave self.offset
  untouched when they return Err.
-/

/-- Mirror of ErrorCode in src/error.rs. -/
inductive ErrorCode where
  | Cancelled
  | Unknown
  | InvalidArgument
  | DeadlineExceeded
  | NotFound
  | AlreadyExists
  | PermissionDenied
  | ResourceExhausted
  | FailedPrecondition
  | Aborted
  | OutOfRange
  | Unimplemented
  | Internal
  | Unavailable
  | DataLoss
  | Unauthenticated
deriving DecidableEq

/-- Mirror of CapyError in src/error.rs (code and message; the optional
source chain carries no information the claims mention). -/
structure CapyError where
  code : ErrorCode
  message : String
deriving DecidableEq

/-- Outcome of a fallible Rust computation: Ok, Err, or a process abort
(panic). -/
inductive POut (α : Type) where
  | ok (a : α)
  | err (e : CapyError)
  | crash
deriving DecidableEq

/-- The byte buffer of the font file, one Nat per byte. -/
abbrev Buf := List Nat

/-- Result of a step of the byte parser: an outcome plus the parser offset
after the step (unchanged when the step failed). -/
abbrev PRes (α : Type) := POut α × Nat

/-- Sequencing of parser steps; mirrors the Rust question-mark operator:
an Err or a panic propagates and the offset at that moment is kept. -/
def pbind {α β : Type} (x : PRes α) (f : α → Nat → PRes β) : PRes β :=
  match x with
  | (POut.ok a, off) => f a off
  | (POut.err e, off) => (POut.err e, off)
  | (POut.crash, off) => (POut.crash, off)

/-- Lift a stateless fallible computation into a parser step. -/
def liftE {α : Type} (e : POut α) (off : Nat) : PRes α := (e, off)

/-- Byte of the buffer at index i; u8 values are always below 256. -/
def byteAt (buf : Buf) (i : Nat) : Nat := buf.getD i 0 % 256

/-- Big-endian u16 assembled from two bytes. -/
def be16 (buf : Buf) (i : Nat) : Nat := 256 * byteAt buf i + byteAt buf (i + 1)

/-- Big-endian u32 assembled from four bytes. -/
def be32 (buf : Buf) (i : Nat) : Nat :=
  16777216 * byteAt buf i + 65536 * byteAt buf (i + 1) +
    256 * byteAt buf (i + 2) + byteAt buf (i + 3)

/-- Reinterpret a u16 bit pattern as an i16 (two's complement). -/
def toSigned16 (v : Nat) : Int := if v < 32768 then (v : Int) else (v : Int) - 65536

/-- Wrapping i16 arithmetic (Rust release-build overflow semantics). -/
def wrap16 (z : Int) : Int := (z + 32768) % 65536 - 32768

/-- Rust cast of an i16 to a 64-bit usize (sign extension, two's
complement). -/
def usizeOfI16 (n : Int) : Nat := (n % 18446744073709551616).toNat

/-- Error value of ByteParser::set_offset. -/
def err_seek : CapyError := ⟨ErrorCode.OutOfRange, "failed to slice buffer for tag"⟩

/-- Error value of ByteParser::read_u8_array_256. -/
def err_u8_array : CapyError := ⟨ErrorCode.OutOfRange, "Buffer too small for u8 array"⟩

/-- Error value of ByteParser::read_be_i16_array_4. -/
def err_i16_array : CapyError := ⟨ErrorCode.OutOfRange, "Buffer too small for i16 array"⟩

/-- Error value of ByteParser::read_be_u8. -/
def err_u8 : CapyError := ⟨ErrorCode.OutOfRange, "Buffer too small for u8"⟩

/-- Error value of ByteParser::read_be_u32. -/
def err_u32 : CapyError := ⟨ErrorCode.OutOfRange, "Buffer too small for u32"⟩

/-- Error value of ByteParser::read_be_u16. -/
def err_u16 : CapyError := ⟨ErrorCode.OutOfRange, "Buffer too small for u16"⟩

/-- Error value of ByteParser::read_be_i16. -/
def err_i16 : CapyError := ⟨ErrorCode.OutOfRange, "Buffer too small for i16"⟩

/-- Error value of lookup_offset_for_tag. -/
def err_table_not_found : CapyError := ⟨ErrorCode.NotFound, "table not found in FontDirectoryTable"⟩

/-- Error produced by the From impl for std::io::Error in src/error.rs:
the code is Unknown and the message is the literal FIXME string. -/
def err_io_unknown : CapyError := ⟨ErrorCode.Unknown, "FIXME: define a real IOError => CapyError mapping"⟩

/-- ByteParser::set_offset: fails when the target exceeds the buffer
length, otherwise moves the offset to the target. -/
def set_offset (buf : Buf) (target off : Nat) : PRes Unit :=
  if buf.length < target then (POut.err err_seek, off) else (POut.ok (), target)

/-- ByteParser::read_be_u8. -/
def read_be_u8 (buf : Buf) (off : Nat) : PRes Nat :=
  if off + 1 ≤ buf.length then (POut.ok (byteAt buf off), off + 1)
  else (POut.err err_u8, off)

/-- ByteParser::read_be_u16. -/
def read_be_u16 (buf : Buf) (off : Nat) : PRes Nat :=
  if off + 2 ≤ buf.length then (POut.ok (be16 buf off), off + 2)
  else (POut.err err_u16, off)

/-- ByteParser::read_be_u32. -/
def read_be_u32 (buf : Buf) (off : Nat) : PRes Nat :=
  if off + 4 ≤ buf.length then (POut.ok (be32 buf off), off + 4)
  else (POut.err err_u32, off)

/-- ByteParser::read_be_i16. -/
def read_be_i16 (buf : Buf) (off : Nat) : PRes Int :=
  if off + 2 ≤ buf.length then (POut.ok (toSigned16 (be16 buf off)), off + 2)
  else (POut.err err_i16, off)

/-- ByteParser::read_u8_array_256. -/
def read_u8_array_256 (buf : Buf) (off : Nat) : PRes (List Nat) :=
  if off + 256 ≤ buf.length then
    (POut.ok ((List.range 256).map fun k => byteAt buf (off + k)), off + 256)
  else (POut.err err_u8_array, off)

/-- ByteParser::read_be_i16_array_4. -/
def read_be_i16_array_4 (buf : Buf) (off : Nat) : PRes (List Int) :=
  if off + 8 ≤ buf.length then
    (POut.ok [toSigned16 (be16 buf off), toSigned16 (be16 buf (off + 2)),
              toSigned16 (be16 buf (off + 4)), toSigned16 (be16 buf (off + 6))], off + 8)
  else (POut.err err_i16_array, off)

/-- Mirror of struct OffsetSubtable. -/
structure OffsetSubtable where
  scalar_type : Nat
  num_tables : Nat
  search_range : Nat
  entry_selector : Nat
  range_shift : Nat
deriving DecidableEq

/-- Mirror of struct TableDirectorySubtable. -/
structure TableDirectorySubtable where
  tag : Nat
  check_sum : Nat
  offset : Nat
  length : Nat
deriving DecidableEq

/-- Mirror of struct FontDirectoryTable. -/
structure FontDirectoryTable where
  offset_subtable : OffsetSubtable
  table_directory_subtables : List TableDirectorySubtable
deriving DecidableEq

/-- Mirror of struct CmapFormatZeroTable. -/
structure CmapFormatZeroTable where
  format : Nat
  length : Nat
  language : Nat
  glyph_index_array : List Nat
deriving DecidableEq

/-- Mirror of struct CmapFormatFourTable. -/
structure CmapFormatFourTable where
  format : Nat
  length : Nat
  language : Nat
  seg_count_x2 : Nat
  search_range : Nat
  entry_selector : Nat
  range_shift : Nat
  end_code : List Nat
  reserved_pad : Nat
  start_code : List Nat
  id_delta : List Nat
  id_range_offset : List Nat
  glyph_id_array : List Nat
deriving DecidableEq

/-- Mirror of struct CmapEncodingSubtable. -/
structure CmapEncodingSubtable where
  platform_id : Nat
  platform_specific_id : Nat
  offset : Nat
deriving DecidableEq

/-- Mirror of struct CmapTable. -/
structure CmapTable where
  version : Nat
  num_subtables : Nat
  encoding_subtables : List CmapEncodingSubtable
  format_zero_table : Option CmapFormatZeroTable
  format_four_table : Option CmapFormatFourTable
deriving DecidableEq

/-- Mirror of struct HeadTable. -/
structure HeadTable where
  version : Nat
  font_revision : Nat
  check_sum_adjustment : Nat
  magic_number : Nat
  flags : Nat
  units_per_em : Nat
  created : Nat
  modified : Nat
  x_min : Int
  y_min : Int
  x_max : Int
  y_max : Int
  mac_style : Nat
  lowest_rec_ppem : Nat
  font_direction_hint : Int
  index_to_loc_format : Int
  glyph_data_format : Int
deriving DecidableEq

/-- Mirror of struct HheaTable. -/
structure HheaTable where
  version : Nat
  ascent : Int
  descent : Int
  line_gap : Int
  advance_width_max : Nat
  min_left_side_bearing : Int
  min_right_side_bearing : Int
  x_max_extent : Int
  caret_slope_rise : Int
  caret_slope_run : Int
  caret_offset : Int
  reserved : List Int
  metric_data_format : Int
  number_of_hmetrics : Nat
deriving DecidableEq

/-- Mirror of struct MaxpTable. -/
structure MaxpTable where
  version : Nat
  num_glyphs : Nat
  max_points : Nat
  max_contours : Nat
  max_composite_points : Nat
  max_composite_contours : Nat
  max_zones : Nat
  max_twilight_points : Nat
  max_storage : Nat
  max_function_defs : Nat
  max_instruction_defs : Nat
  max_stack_elements : Nat
  max_size_of_instructions : Nat
  max_component_elements : Nat
  max_component_depth : Nat
deriving DecidableEq

/-- Mirror of struct GlyfSubtable. -/
structure GlyfSubtable where
  number_of_contours : Int
  x_min : Int
  y_min : Int
  x_max : Int
  y_max : Int
  end_pts_of_contours : List Nat
  instruction_length : Nat
  instructions : List Nat
  flags : List Nat
  x_coordinates : List Int
  y_coordinates : List Int
deriving DecidableEq

/-- Mirror of struct GlyfTable. -/
structure GlyfTable where
  glyphs : List GlyfSubtable
deriving DecidableEq

/-- Mirror of struct Font. -/
structure Font where
  font_directory_table : FontDirectoryTable
  cmap_table : CmapTable
  head_table : HeadTable
  hhea_table : HheaTable
  maxp_table : MaxpTable
  glyf_table : GlyfTable
deriving DecidableEq

/-- Mirror of enum TableTag. -/
inductive TableTag where
  | Dsig | Gdef | Gpos | Gsub | Jstf | Ltsh | Os2 | Pclt | Vdmx
  | Cmap | Cvt | Fpgm | Gasp | Glyf | Hdmx | Head | Hhea | Hmtx
  | Kern | Loca | Maxp | Meta | Name | Post | Prep
deriving DecidableEq

/-- Discriminant values of enum TableTag (the Rust cast tag as u32). -/
def TableTag.toU32 : TableTag → Nat
  | .Dsig => 1146308935
  | .Gdef => 1195656518
  | .Gpos => 1196445523
  | .Gsub => 1196643650
  | .Jstf => 1246975046
  | .Ltsh => 1280594760
  | .Os2 => 1330851634
  | .Pclt => 1346587732
  | .Vdmx => 1447316824
  | .Cmap => 1668112752
  | .Cvt => 1668707360
  | .Fpgm => 1718642541
  | .Gasp => 1734439792
  | .Glyf => 1735162214
  | .Hdmx => 1751412088
  | .Head => 1751474532
  | .Hhea => 1751672161
  | .Hmtx => 1752003704
  | .Kern => 1801810542
  | .Loca => 1819239265
  | .Maxp => 1835104368
  | .Meta => 1835365473
  | .Name => 1851878757
  | .Post => 1886352244
  | .Prep => 1886545264

/-- Mirror of lookup_offset_for_tag: linear scan of the directory records
for an exactly matching tag; NotFound when no record matches. -/
def lookup_offset_for_tag (tag : TableTag) (font_directory_table : FontDirectoryTable) : POut Nat :=
  match font_directory_table.table_directory_subtables.find? (fun dir => dir.tag == tag.toU32) with
  | some dir => POut.ok dir.offset
  | none => POut.err err_table_not_found

/-- Reading n consecutive items with a fixed reader, collecting them in
order; mirrors the repeated-push for loops of the source. -/
def readCount {α : Type} (f : Buf → Nat → PRes α) (buf : Buf) : Nat → Nat → PRes (List α)
  | 0, off => (POut.ok [], off)
  | n + 1, off =>
    pbind (f buf off) fun a off =>
    pbind (readCount f buf n off) fun l off =>
    (POut.ok (a :: l), off)

/-- Mirror of parse_offset_table. -/
def parse_offset_table (buf : Buf) (off : Nat) : PRes OffsetSubtable :=
  pbind (read_be_u32 buf off) fun scalar_type off =>
  pbind (read_be_u16 buf off) fun num_tables off =>
  pbind (read_be_u16 buf off) fun search_range off =>
  pbind (read_be_u16 buf off) fun entry_selector off =>
  pbind (read_be_u16 buf off) fun range_shift off =>
  (POut.ok ⟨scalar_type, num_tables, search_range, entry_selector, range_shift⟩, off)

/-- One table directory record (body of the loop of
parse_table_directory_subtables). -/
def read_table_directory_subtable (buf : Buf) (off : Nat) : PRes TableDirectorySubtable :=
  pbind (read_be_u32 buf off) fun tag off =>
  pbind (read_be_u32 buf off) fun check_sum off =>
  pbind (read_be_u32 buf off) fun offset off =>
  pbind (read_be_u32 buf off) fun length off =>
  (POut.ok ⟨tag, check_sum, offset, length⟩, off)

/-- Mirror of parse_table_directory_subtables. -/
def parse_table_directory_subtables (buf : Buf) (num_tables off : Nat) : PRes (List TableDirectorySubtable) :=
  readCount read_table_directory_subtable buf num_tables off

/-- Mirror of parse_font_directory_table. -/
def parse_font_directory_table (buf : Buf) (off : Nat) : PRes FontDirectoryTable :=
  pbind (parse_offset_table buf off) fun offset_subtable off =>
  pbind (parse_table_directory_subtables buf offset_subtable.num_tables off) fun table_directory_subtables off =>
  (POut.ok ⟨offset_subtable, table_directory_subtables⟩, off)

/-- One cmap encoding record (body of the loop of
parse_cmap_encoding_subtables). -/
def read_cmap_encoding_subtable (buf : Buf) (off : Nat) : PRes CmapEncodingSubtable :=
  pbind (read_be_u16 buf off) fun platform_id off =>
  pbind (read_be_u16 buf off) fun platform_specific_id off =>
  pbind (read_be_u32 buf off) fun offset off =>
  (POut.ok ⟨platform_id, platform_specific_id, offset⟩, off)

/-- Mirror of parse_cmap_encoding_subtables. -/
def parse_cmap_encoding_subtables (buf : Buf) (num_subtables off : Nat) : PRes (List CmapEncodingSubtable) :=
  readCount read_cmap_encoding_subtable buf num_subtables off

/-- Mirror of parse_cmap_format_zero. -/
def parse_cmap_format_zero (buf : Buf) (format : Nat) (off : Nat) : PRes CmapFormatZeroTable :=
  pbind (read_be_u16 buf off) fun length off =>
  pbind (read_be_u16 buf off) fun language off =>
  pbind (read_u8_array_256 buf off) fun glyph_index_array off =>
  (POut.ok ⟨format, length, language, glyph_index_array⟩, off)

/-- Mirror of parse_cmap_format_four.  The reads follow the evaluation
order of the Rust function: seg_count_x2 first, then search_range,
entry_selector, range_shift, the four seg_count-sized arrays with
reserved_pad after end_code, the seg_count-sized glyph_id_array, and only
then the length and language fields, whose reads sit inside the final
struct literal and therefore execute last. -/
def parse_cmap_format_four (buf : Buf) (format : Nat) (off : Nat) : PRes CmapFormatFourTable :=
  pbind (read_be_u16 buf off) fun seg_count_x2 off =>
  pbind (read_be_u16 buf off) fun search_range off =>
  pbind (read_be_u16 buf off) fun entry_selector off =>
  pbind (read_be_u16 buf off) fun range_shift off =>
  pbind (readCount read_be_u16 buf (seg_count_x2 / 2) off) fun end_code off =>
  pbind (read_be_u16 buf off) fun reserved_pad off =>
  pbind (readCount read_be_u16 buf (seg_count_x2 / 2) off) fun start_code off =>
  pbind (readCount read_be_u16 buf (seg_count_x2 / 2) off) fun id_delta off =>
  pbind (readCount read_be_u16 buf (seg_count_x2 / 2) off) fun id_range_offset off =>
  pbind (readCount read_be_u16 buf (seg_count_x2 / 2) off) fun glyph_id_array off =>
  pbind (read_be_u16 buf off) fun length off =>
  pbind (read_be_u16 buf off) fun language off =>
  (POut.ok ⟨format, length, language, seg_count_x2, search_range, entry_selector,
            range_shift, end_code, reserved_pad, start_code, id_delta,
            id_range_offset, glyph_id_array⟩, off)

/-- Per-record dispatch loop of parse_cmap_table: seek to the subtable,
read its format, decode formats 0 and 4, and hit the todo macro (a panic,
modelled as crash) on every other format. -/
def parse_cmap_subtable_loop (buf : Buf) (cmap_offset : Nat) :
    List CmapEncodingSubtable → Option CmapFormatZeroTable → Option CmapFormatFourTable →
    Nat → PRes (Option CmapFormatZeroTable × Option CmapFormatFourTable)
  | [], format_zero_table, format_four_table, off =>
    (POut.ok (format_zero_table, format_four_table), off)
  | table :: rest, format_zero_table, format_four_table, off =>
    pbind (set_offset buf (cmap_offset + table.offset) off) fun _ off =>
    pbind (read_be_u16 buf off) fun format off =>
    if format = 0 then
      pbind (parse_cmap_format_zero buf format off) fun tmp_table off =>
      parse_cmap_subtable_loop buf cmap_offset rest (some tmp_table) format_four_table off
    else if format = 4 then
      pbind (parse_cmap_format_four buf format off) fun tmp_table off =>
      parse_cmap_subtable_loop buf cmap_offset rest format_zero_table (some tmp_table) off
    else
      (POut.crash, off)

/-- Mirror of parse_cmap_table. -/
def parse_cmap_table (buf : Buf) (font_directory_table : FontDirectoryTable) (off : Nat) : PRes CmapTable :=
  pbind (liftE (lookup_offset_for_tag TableTag.Cmap font_directory_table) off) fun cmap_offset off =>
  pbind (set_offset buf cmap_offset off) fun _ off =>
  pbind (read_be_u16 buf off) fun version off =>
  pbind (read_be_u16 buf off) fun num_subtables off =>
  pbind (parse_cmap_encoding_subtables buf num_subtables off) fun encoding_subtables off =>
  pbind (parse_cmap_subtable_loop buf cmap_offset encoding_subtables none none off) fun tables off =>
  (POut.ok ⟨version, num_subtables, encoding_subtables, tables.1, tables.2⟩, off)

/-- Mirror of parse_head_table. -/
def parse_head_table (buf : Buf) (font_directory_table : FontDirectoryTable) (off : Nat) : PRes HeadTable :=
  pbind (liftE (lookup_offset_for_tag TableTag.Head font_directory_table) off) fun head_offset off =>
  pbind (set_offset buf head_offset off) fun _ off =>
  pbind (read_be_u32 buf off) fun version off =>
  pbind (read_be_u32 buf off) fun font_revision off =>
  pbind (read_be_u32 buf off) fun check_sum_adjustment off =>
  pbind (read_be_u32 buf off) fun magic_number off =>
  pbind (read_be_u16 buf off) fun flags off =>
  pbind (read_be_u16 buf off) fun units_per_em off =>
  pbind (read_be_u32 buf off) fun created off =>
  pbind (read_be_u32 buf off) fun modified off =>
  pbind (read_be_i16 buf off) fun x_min off =>
  pbind (read_be_i16 buf off) fun y_min off =>
  pbind (read_be_i16 buf off) fun x_max off =>
  pbind (read_be_i16 buf off) fun y_max off =>
  pbind (read_be_u16 buf off) fun mac_style off =>
  pbind (read_be_u16 buf off) fun lowest_rec_ppem off =>
  pbind (read_be_i16 buf off) fun font_direction_hint off =>
  pbind (read_be_i16 buf off) fun index_to_loc_format off =>
  pbind (read_be_i16 buf off) fun glyph_data_format off =>
  (POut.ok ⟨version, font_revision, check_sum_adjustment, magic_number, flags,
            units_per_em, created, modified, x_min, y_min, x_max, y_max,
            mac_style, lowest_rec_ppem, font_direction_hint, index_to_loc_format,
            glyph_data_format⟩, off)

/-- Mirror of parse_hhea_table. -/
def parse_hhea_table (buf : Buf) (font_directory_table : FontDirectoryTable) (off : Nat) : PRes HheaTable :=
  pbind (liftE (lookup_offset_for_tag TableTag.Hhea font_directory_table) off) fun hhea_offset off =>
  pbind (set_offset buf hhea_offset off) fun _ off =>
  pbind (read_be_u32 buf off) fun version off =>
  pbind (read_be_i16 buf off) fun ascent off =>
  pbind (read_be_i16 buf off) fun descent off =>
  pbind (read_be_i16 buf off) fun line_gap off =>
  pbind (read_be_u16 buf off) fun advance_width_max off =>
  pbind (read_be_i16 buf off) fun min_left_side_bearing off =>
  pbind (read_be_i16 buf off) fun min_right_side_bearing off =>
  pbind (read_be_i16 buf off) fun x_max_extent off =>
  pbind (read_be_i16 buf off) fun caret_slope_rise off =>
  pbind (read_be_i16 buf off) fun caret_slope_run off =>
  pbind (read_be_i16 buf off) fun caret_offset off =>
  pbind (read_be_i16_array_4 buf off) fun reserved off =>
  pbind (read_be_i16 buf off) fun metric_data_format off =>
  pbind (read_be_u16 buf off) fun number_of_hmetrics off =>
  (POut.ok ⟨version, ascent, descent, line_gap, advance_width_max,
            min_left_side_bearing, min_right_side_bearing, x_max_extent,
            caret_slope_rise, caret_slope_run, caret_offset, reserved,
            metric_data_format, number_of_hmetrics⟩, off)

/-- Mirror of parse_maxp_table. -/
def parse_maxp_table (buf : Buf) (font_directory_table : FontDirectoryTable) (off : Nat) : PRes MaxpTable :=
  pbind (liftE (lookup_offset_for_tag TableTag.Maxp font_directory_table) off) fun maxp_offset off =>
  pbind (set_offset buf maxp_offset off) fun _ off =>
  pbind (read_be_u32 buf off) fun version off =>
  pbind (read_be_u16 buf off) fun num_glyphs off =>
  pbind (read_be_u16 buf off) fun max_points off =>
  pbind (read_be_u16 buf off) fun max_contours off =>
  pbind (read_be_u16 buf off) fun max_composite_points off =>
  pbind (read_be_u16 buf off) fun max_composite_contours off =>
  pbind (read_be_u16 buf off) fun max_zones off =>
  pbind (read_be_u16 buf off) fun max_twilight_points off =>
  pbind (read_be_u16 buf off) fun max_storage off =>
  pbind (read_be_u16 buf off) fun max_function_defs off =>
  pbind (read_be_u16 buf off) fun max_instruction_defs off =>
  pbind (read_be_u16 buf off) fun max_stack_elements off =>
  pbind (read_be_u16 buf off) fun max_size_of_instructions off =>
  pbind (read_be_u16 buf off) fun max_component_elements off =>
  pbind (read_be_u16 buf off) fun max_component_depth off =>
  (POut.ok ⟨version, num_glyphs, max_points, max_contours, max_composite_points,
            max_composite_contours, max_zones, max_twilight_points, max_storage,
            max_function_defs, max_instruction_defs, max_stack_elements,
            max_size_of_instructions, max_component_elements, max_component_depth⟩, off)

/-- Flag run-length expansion loop of parse_glyph_subtable.  The Rust loop
counter i is a u16 that counts the flags appended so far; it is modelled as
the Nat c compared modulo 2 to the 16 (the release-build wraparound of the
u16 increments).  The fuel argument only bounds the recursion; every
iteration consumes at least one buffer byte, so fuel of buffer length plus
one is never exhausted. -/
def parse_flags (buf : Buf) (num_points : Nat) : Nat → Nat → Nat → PRes (List Nat)
  | 0, _, off => (POut.err err_u8, off)
  | fuel + 1, c, off =>
    if c % 65536 < num_points then
      pbind (read_be_u8 buf off) fun flag off =>
      if flag &&& 8 ≠ 0 then
        pbind (read_be_u8 buf off) fun repeat_count off =>
        pbind (parse_flags buf num_points fuel (c + repeat_count + 1) off) fun fs off =>
        (POut.ok (flag :: (List.replicate repeat_count flag ++ fs)), off)
      else
        pbind (parse_flags buf num_points fuel (c + 1) off) fun fs off =>
        (POut.ok (flag :: fs), off)
    else (POut.ok [], off)

/-- The x-coordinate loop of parse_glyph_subtable: one entry per flag,
short unsigned delta when bit 2 is set (sign from bit 16), full i16 delta
when bits 2 and 16 are both clear, repeat of the previous value when only
bit 16 is set. -/
def read_x_coordinates (buf : Buf) : List Nat → Int → Nat → PRes (List Int)
  | [], _, off => (POut.ok [], off)
  | flag :: rest, x, off =>
    if flag &&& 2 ≠ 0 then
      pbind (read_be_u8 buf off) fun dx off =>
      let x1 := wrap16 (x + (if flag &&& 16 ≠ 0 then (dx : Int) else -(dx : Int)))
      pbind (read_x_coordinates buf rest x1 off) fun xs off =>
      (POut.ok (x1 :: xs), off)
    else if flag &&& 16 = 0 then
      pbind (read_be_i16 buf off) fun d off =>
      let x1 := wrap16 (x + d)
      pbind (read_x_coordinates buf rest x1 off) fun xs off =>
      (POut.ok (x1 :: xs), off)
    else
      pbind (read_x_coordinates buf rest x off) fun xs off =>
      (POut.ok (x :: xs), off)

/-- The y-coordinate loop of parse_glyph_subtable, over bits 4 and 32. -/
def read_y_coordinates (buf : Buf) : List Nat → Int → Nat → PRes (List Int)
  | [], _, off => (POut.ok [], off)
  | flag :: rest, y, off =>
    if flag &&& 4 ≠ 0 then
      pbind (read_be_u8 buf off) fun dy off =>
      let y1 := wrap16 (y + (if flag &&& 32 ≠ 0 then (dy : Int) else -(dy : Int)))
      pbind (read_y_coordinates buf rest y1 off) fun ys off =>
      (POut.ok (y1 :: ys), off)
    else if flag &&& 32 = 0 then
      pbind (read_be_i16 buf off) fun d off =>
      let y1 := wrap16 (y + d)
      pbind (read_y_coordinates buf rest y1 off) fun ys off =>
      (POut.ok (y1 :: ys), off)
    else
      pbind (read_y_coordinates buf rest y off) fun ys off =>
      (POut.ok (y :: ys), off)

/-- Mirror of parse_glyph_subtable.  The point-count computation indexes
end_pts_of_contours at the usize cast of number_of_contours minus one with
no bounds guard; an out-of-range index is a Rust panic, modelled as crash.
The subtraction wraps as the release build does. -/
def parse_glyph_subtable (buf : Buf) (font_directory_table : FontDirectoryTable) (off : Nat) : PRes GlyfSubtable :=
  pbind (liftE (lookup_offset_for_tag TableTag.Glyf font_directory_table) off) fun glyf_offset off =>
  pbind (set_offset buf glyf_offset off) fun _ off =>
  pbind (read_be_i16 buf off) fun number_of_contours off =>
  pbind (read_be_i16 buf off) fun x_min off =>
  pbind (read_be_i16 buf off) fun y_min off =>
  pbind (read_be_i16 buf off) fun x_max off =>
  pbind (read_be_i16 buf off) fun y_max off =>
  pbind (readCount read_be_u16 buf number_of_contours.toNat off) fun end_pts_of_contours off =>
  pbind (read_be_u16 buf off) fun instruction_length off =>
  pbind (readCount read_be_u8 buf instruction_length off) fun instructions off =>
  match end_pts_of_contours.get?
      ((usizeOfI16 number_of_contours + 18446744073709551615) % 18446744073709551616) with
  | none => (POut.crash, off)
  | some last =>
    let num_points := (last + 1) % 65536
    pbind (parse_flags buf num_points (buf.length + 1) 0 off) fun flags off =>
    pbind (read_x_coordinates buf flags 0 off) fun x_coordinates off =>
    pbind (read_y_coordinates buf flags 0 off) fun y_coordinates off =>
    (POut.ok ⟨number_of_contours, x_min, y_min, x_max, y_max, end_pts_of_contours,
              instruction_length, instructions, flags, x_coordinates, y_coordinates⟩, off)

/-- The per-glyph loop of parse_glyf_table: parse a glyph, stop (keeping
the glyphs accumulated so far) when its contour count is negative,
otherwise keep it and continue. -/
def parse_glyf_glyphs (buf : Buf) (font_directory_table : FontDirectoryTable) :
    Nat → Nat → PRes (List GlyfSubtable)
  | 0, off => (POut.ok [], off)
  | n + 1, off =>
    match parse_glyph_subtable buf font_directory_table off with
    | (POut.ok glyph, off) =>
      if glyph.number_of_contours < 0 then (POut.ok [], off)
      else
        match parse_glyf_glyphs buf font_directory_table n off with
        | (POut.ok l, off) => (POut.ok (glyph :: l), off)
        | (POut.err e, off) => (POut.err e, off)
        | (POut.crash, off) => (POut.crash, off)
    | (POut.err e, off) => (POut.err e, off)
    | (POut.crash, off) => (POut.crash, off)

/-- Mirror of parse_glyf_table. -/
def parse_glyf_table (buf : Buf) (font_directory_table : FontDirectoryTable) (num_glyphs off : Nat) : PRes GlyfTable :=
  pbind (parse_glyf_glyphs buf font_directory_table num_glyphs off) fun glyphs off =>
  (POut.ok ⟨glyphs⟩, off)

/-- Abstract file system: what the open-and-read of a file path yields, if
anything.  A path that cannot be opened or fully read maps to none. -/
abbrev FileSystem := String → Option Buf

/-- Mirror of read_file_to_byte_buffer: the question-mark on File::open
and read_to_end converts a std::io::Error through the From impl of
src/error.rs, which yields the Unknown-coded FIXME error. -/
def read_file_to_byte_buffer (fs : FileSystem) (filepath : String) : POut Buf :=
  match fs filepath with
  | some buffer => POut.ok buffer
  | none => POut.err err_io_unknown

/-- Mirror of parse_from_file: read the file, then parse the directory,
cmap, head, hhea, maxp and glyf tables in order over one parser whose
offset starts at zero. -/
def parse_from_file (fs : FileSystem) (filepath : String) : POut Font :=
  match read_file_to_byte_buffer fs filepath with
  | POut.err e => POut.err e
  | POut.crash => POut.crash
  | POut.ok buffer =>
    (pbind (parse_font_directory_table buffer 0) fun font_directory_table off =>
     pbind (parse_cmap_table buffer font_directory_table off) fun cmap_table off =>
     pbind (parse_head_table buffer font_directory_table off) fun head_table off =>
     pbind (parse_hhea_table buffer font_directory_table off) fun hhea_table off =>
     pbind (parse_maxp_table buffer font_directory_table off) fun maxp_table off =>
     pbind (parse_glyf_table buffer font_directory_table maxp_table.num_glyphs off) fun glyf_table off =>
     (POut.ok ⟨font_directory_table, cmap_table, head_table, hhea_table,
               maxp_table, glyf_table⟩, off)).fst

/-- Directory whose only record is a glyf table at offset 0 (other header
fields arbitrary). -/
def dirGlyfAtZero : FontDirectoryTable := ⟨⟨0, 1, 0, 0, 0⟩, [⟨1735162214, 0, 0, 0⟩]⟩

/-- Directory whose only record is a cmap table at offset 0. -/
def dirCmapAtZero : FontDirectoryTable := ⟨⟨0, 1, 0, 0, 0⟩, [⟨1668112752, 0, 0, 0⟩]⟩

/-- Directory whose only record is a head table at offset 0. -/
def dirHeadAtZero : FontDirectoryTable := ⟨⟨0, 1, 0, 0, 0⟩, [⟨1751474532, 0, 0, 0⟩]⟩

/-- Directory holding a head record and a glyf record at offset 77. -/
def dirWithGlyf : FontDirectoryTable :=
  ⟨⟨0, 2, 0, 0, 0⟩, [⟨1751474532, 0, 12, 0⟩, ⟨1735162214, 5, 77, 10⟩]⟩

/-- Directory holding only a head record, no glyf record. -/
def dirWithoutGlyf : FontDirectoryTable := ⟨⟨0, 1, 0, 0, 0⟩, [⟨1751474532, 0, 12, 0⟩]⟩

/-- Glyph bytes where the single repeat run overshoots the point count:
one contour ending at point 1 (two points), no instructions, one flag byte
with the repeat bit set and a repeat count of 3, then the coordinate
bytes the four resulting flags demand. -/
def c1buf : Buf :=
  [0, 1, 0, 0, 0, 0, 0, 0, 0, 0, 0, 1, 0, 0, 8, 3,
   0, 0, 0, 0, 0, 0, 0, 0, 0, 0, 0, 0, 0, 0, 0, 0]

/-- The glyph the decoder produces from c1buf: four flags for two points. -/
def c1glyph : GlyfSubtable :=
  ⟨1, 0, 0, 0, 0, [1], 0, [], [8, 8, 8, 8], [0, 0, 0, 0], [0, 0, 0, 0]⟩

/-- Cmap bytes whose single encoding record points at a subtable of
format 6. -/
def c2buf : Buf := [0, 0, 0, 1, 0, 0, 0, 0, 0, 0, 0, 12, 0, 6]

/-- Glyph bytes with number_of_contours equal to minus one (a compound
glyph header) followed by the bounding box and a zero instruction
length. -/
def c3buf : Buf := [255, 255, 0, 0, 0, 0, 0, 0, 0, 0, 0, 0]

/-- Cmap bytes whose single encoding record points at a format-4 subtable
with one segment; the u16 right after the format field is 2 and the
stored length field value 99 sits in the trailing pair of u16s. -/
def c5buf : Buf :=
  [0, 0, 0, 1, 0, 0, 0, 0, 0, 0, 0, 12,
   0, 4, 0, 2, 0, 1, 0, 2, 0, 3, 0, 10, 0, 0, 0, 5, 0, 7, 0, 0, 0, 9, 0, 99, 0, 88]

/-- The format-4 table the decoder produces from c5buf. -/
def c5table : CmapFormatFourTable := ⟨4, 99, 88, 2, 1, 2, 3, [10], 0, [5], [7], [0], [9]⟩

/-- A buffer of twelve zero bytes: a glyph header with zero contours, an
empty bounding box and a zero instruction length. -/
def c9buf : Buf := List.replicate 12 0

/-- All-zero head table bytes except units_per_em, which holds 400. -/
def c8buf : Buf := List.replicate 18 0 ++ [1, 144] ++ List.replicate 26 0

/-- An all-zero HeadTable, used as the fallback of c8head. -/
def default_head : HeadTable := ⟨0, 0, 0, 0, 0, 0, 0, 0, 0, 0, 0, 0, 0, 0, 0, 0, 0⟩

/-- The head table parsed from c8buf. -/
def c8head : HeadTable :=
  match (parse_head_table c8buf dirHeadAtZero 0).fst with
  | POut.ok t => t
  | _ => default_head

/-- An empty glyph, used as the getD fallback in the c4 witness. -/
def default_glyph : GlyfSubtable := ⟨0, 0, 0, 0, 0, [], 0, [], [], [], []⟩

/-- An empty Font, used as the fallback of c4font. -/
def default_font : Font :=
  ⟨⟨⟨0, 0, 0, 0, 0⟩, []⟩, ⟨0, 0, [], none, none⟩, default_head,
   ⟨0, 0, 0, 0, 0, 0, 0, 0, 0, 0, 0, [], 0, 0⟩,
   ⟨0, 0, 0, 0, 0, 0, 0, 0, 0, 0, 0, 0, 0, 0, 0⟩, ⟨[]⟩⟩

/-- A complete well-formed font file buffer: directory of five tables,
format-0 cmap, head, hhea, maxp declaring two glyphs, and one simple
glyph whose flags make both coordinate loops read no bytes. -/
def c4buf : Buf :=
  [0, 1, 0, 0, 0, 5, 0, 0, 0, 0, 0, 0] ++
  [99, 109, 97, 112, 0, 0, 0, 0, 0, 0, 0, 92, 0, 0, 0, 0] ++
  [104, 101, 97, 100, 0, 0, 0, 0, 0, 0, 1, 110, 0, 0, 0, 0] ++
  [104, 104, 101, 97, 0, 0, 0, 0, 0, 0, 1, 156, 0, 0, 0, 0] ++
  [109, 97, 120, 112, 0, 0, 0, 0, 0, 0, 1, 192, 0, 0, 0, 0] ++
  [103, 108, 121, 102, 0, 0, 0, 0, 0, 0, 1, 224, 0, 0, 0, 0] ++
  [0, 0, 0, 1, 0, 0, 0, 0, 0, 0, 0, 12] ++
  [0, 0, 1, 6, 0, 0] ++ List.replicate 256 0 ++
  List.replicate 18 0 ++ [1, 144] ++ List.replicate 26 0 ++
  List.replicate 36 0 ++
  [0, 0, 0, 0, 0, 2] ++ List.replicate 26 0 ++
  [0, 1, 0, 0, 0, 0, 0, 0, 0, 0, 0, 1, 0, 0, 48, 48]

/-- File system holding exactly the c4 font file. -/
def c4fs : FileSystem := fun _ => some c4buf

/-- The font parsed from the c4 font file. -/
def c4font : Font :=
  match parse_from_file c4fs "font.ttf" with
  | POut.ok f => f
  | _ => default_font

theorem pbind_ok_eq {α β : Type} (a : α) (off : Nat) (f : α → Nat → PRes β) :
    pbind (POut.ok a, off) f = f a off := rfl

theorem pbind_err_eq {α β : Type} (e : CapyError) (off : Nat) (f : α → Nat → PRes β) :
    pbind (POut.err e, off) f = (POut.err e, off) := rfl

theorem pbind_crash_eq {α β : Type} (off : Nat) (f : α → Nat → PRes β) :
    pbind (POut.crash, off) f = (POut.crash, off) := rfl

/-- Inversion of a successful pbind: the first step succeeded and the
continuation from its result succeeded. -/
theorem pbind_ok {α β : Type} {x : PRes α} {f : α → Nat → PRes β} {b : β} {off2 : Nat}
    (h : pbind x f = (POut.ok b, off2)) :
    ∃ a off1, x = (POut.ok a, off1) ∧ f a off1 = (POut.ok b, off2) := by
  obtain ⟨r, o⟩ := x
  cases r with
  | ok a => exact ⟨a, o, rfl, h⟩
  | err e => simp [pbind] at h
  | crash => simp [pbind] at h

/-- First-component variant of pbind_ok. -/
theorem pbind_fst_ok {α β : Type} {x : PRes α} {f : α → Nat → PRes β} {b : β}
    (h : (pbind x f).fst = POut.ok b) :
    ∃ a off1, x = (POut.ok a, off1) ∧ (f a off1).fst = POut.ok b := by
  obtain ⟨r, o⟩ := x
  cases r with
  | ok a => exact ⟨a, o, rfl, h⟩
  | err e => simp [pbind] at h
  | crash => simp [pbind] at h

theorem set_offset_ok {buf : Buf} {target off off2 : Nat} {u : Unit}
    (h : set_offset buf target off = (POut.ok u, off2)) :
    off2 = target ∧ target ≤ buf.length := by
  unfold set_offset at h
  split at h
  · simp at h
  · next hc => simp only [Prod.mk.injEq] at h; omega

theorem read_be_u8_ok {buf : Buf} {off : Nat} {v : Nat} {off2 : Nat}
    (h : read_be_u8 buf off = (POut.ok v, off2)) :
    v = byteAt buf off ∧ off2 = off + 1 ∧ off + 1 ≤ buf.length := by
  unfold read_be_u8 at h
  split at h
  case isTrue hc =>
    simp only [Prod.mk.injEq, POut.ok.injEq] at h
    exact ⟨h.1.symm, h.2.symm, hc⟩
  case isFalse => simp at h

theorem read_be_u16_ok {buf : Buf} {off : Nat} {v : Nat} {off2 : Nat}
    (h : read_be_u16 buf off = (POut.ok v, off2)) :
    v = be16 buf off ∧ off2 = off + 2 ∧ off + 2 ≤ buf.length := by
  unfold read_be_u16 at h
  split at h
  case isTrue hc =>
    simp only [Prod.mk.injEq, POut.ok.injEq] at h
    exact ⟨h.1.symm, h.2.symm, hc⟩
  case isFalse => simp at h

theorem read_be_u32_ok {buf : Buf} {off : Nat} {v : Nat} {off2 : Nat}
    (h : read_be_u32 buf off = (POut.ok v, off2)) :
    v = be32 buf off ∧ off2 = off + 4 ∧ off + 4 ≤ buf.length := by
  unfold read_be_u32 at h
  split at h
  case isTrue hc =>
    simp only [Prod.mk.injEq, POut.ok.injEq] at h
    exact ⟨h.1.symm, h.2.symm, hc⟩
  case isFalse => simp at h

theorem read_be_i16_ok {buf : Buf} {off : Nat} {v : Int} {off2 : Nat}
    (h : read_be_i16 buf off = (POut.ok v, off2)) :
    v = toSigned16 (be16 buf off) ∧ off2 = off + 2 ∧ off + 2 ≤ buf.length := by
  unfold read_be_i16 at h
  split at h
  case isTrue hc =>
    simp only [Prod.mk.injEq, POut.ok.injEq] at h
    exact ⟨h.1.symm, h.2.symm, hc⟩
  case isFalse => simp at h

/-- A successful readCount returns exactly as many items as requested. -/
theorem readCount_length {α : Type} {f : Buf → Nat → PRes α} {buf : Buf} :
    ∀ {n off l off2}, readCount f buf n off = (POut.ok l, off2) → l.length = n := by
  intro n
  induction n with
  | zero =>
    intro off l off2 h
    simp only [readCount, Prod.mk.injEq, POut.ok.injEq] at h
    simp [← h.1]
  | succ n ih =>
    intro off l off2 h
    unfold readCount at h
    obtain ⟨a, o1, h1, h⟩ := pbind_ok h
    obtain ⟨l1, o2, h2, h⟩ := pbind_ok h
    simp only [Prod.mk.injEq, POut.ok.injEq] at h
    have := ih h2
    simp [← h.1, this]

/-- Reading n bytes succeeds whenever they all lie inside the buffer, and
yields those bytes in order. -/
theorem readCount_u8_all {buf : Buf} :
    ∀ n off, off + n ≤ buf.length →
      readCount read_be_u8 buf n off =
        (POut.ok ((List.range n).map fun k => byteAt buf (off + k)), off + n) := by
  intro n
  induction n with
  | zero => intro off h; simp [readCount]
  | succ n ih =>
    intro off h
    unfold readCount
    rw [read_be_u8, if_pos (by omega), pbind_ok_eq, ih (off + 1) (by omega), pbind_ok_eq]
    simp only [Prod.mk.injEq, POut.ok.injEq]
    constructor
    · rw [List.range_succ_eq_map, List.map_cons, List.map_map]
      simp only [Nat.add_zero]
      congr 1
      apply List.map_congr_left
      intro k _
      simp only [Function.comp_apply]
      congr 1
      omega
    · omega

/-- Exit invariant of the flag expansion loop: on success the loop stopped
because the u16 counter, which counts the appended flags, reached or
passed the point count. -/
theorem parse_flags_length {buf : Buf} {np : Nat} :
    ∀ {fuel c off fs off2}, parse_flags buf np fuel c off = (POut.ok fs, off2) →
      np ≤ (c + fs.length) % 65536 := by
  intro fuel
  induction fuel with
  | zero => intro c off fs off2 h; simp [parse_flags] at h
  | succ fuel ih =>
    intro c off fs off2 h
    unfold parse_flags at h
    split at h
    case isTrue hlt =>
      obtain ⟨flag, o1, h1, h⟩ := pbind_ok h
      split at h
      case isTrue hbit =>
        obtain ⟨rep, o2, h2, h⟩ := pbind_ok h
        obtain ⟨fs1, o3, h3, h⟩ := pbind_ok h
        simp only [Prod.mk.injEq, POut.ok.injEq] at h
        have hinv := ih h3
        have hlen : c + fs.length = c + rep + 1 + fs1.length := by
          rw [← h.1]
          simp only [List.length_cons, List.length_append, List.length_replicate]
          omega
        rw [hlen]
        exact hinv
      case isFalse hbit =>
        obtain ⟨fs1, o2, h2, h⟩ := pbind_ok h
        simp only [Prod.mk.injEq, POut.ok.injEq] at h
        have hinv := ih h2
        have hlen : c + fs.length = c + 1 + fs1.length := by
          rw [← h.1]
          simp only [List.length_cons]
          omega
        rw [hlen]
        exact hinv
    case isFalse hge =>
      simp only [Prod.mk.injEq, POut.ok.injEq] at h
      rw [← h.1]
      simp only [List.length_nil, Nat.add_zero]
      omega

/-- The element at the last index of a list is its last element. -/
theorem getLastD_of_get_last :
    ∀ {l : List Nat} {v : Nat} (d : Nat), l.get? (l.length - 1) = some v → l.getLastD d = v := by
  intro l
  induction l with
  | nil => intro v d h; simp at h
  | cons a t ih =>
    intro v d h
    cases t with
    | nil => simp at h; simpa using h
    | cons b m =>
      have hlen : (a :: b :: m).length - 1 = (b :: m).length := by simp
      rw [hlen] at h
      have : (b :: m).length = ((b :: m).length - 1) + 1 := by simp
      rw [this] at h
      simp only [List.get?_cons_succ] at h
      simpa [List.getLastD_cons] using ih a h

/-- A big-endian u16 assembled from real bytes is below 2 to the 16. -/
theorem be16_lt (buf : Buf) (i : Nat) : be16 buf i < 65536 := by
  unfold be16 byteAt
  have h1 : buf.getD i 0 % 256 < 256 := Nat.mod_lt _ (by omega)
  have h2 : buf.getD (i + 1) 0 % 256 < 256 := Nat.mod_lt _ (by omega)
  omega

/-- The signed reinterpretation of a u16 lies in the i16 range. -/
theorem toSigned16_range {v : Nat} (h : v < 65536) :
    -32768 ≤ toSigned16 v ∧ toSigned16 v < 32768 := by
  unfold toSigned16
  split <;> omega

/-- The unguarded index computation of parse_glyph_subtable: when the
index produced from number_of_contours by the usize cast and the wrapping
subtraction is in range for a list of number_of_contours entries, the
contour count is at least one and the index is the last position. -/
theorem glyf_index_last {n : Int} {t : Nat}
    (hts : n.toNat = t) (hub : t ≤ 32767)
    (hidx : (usizeOfI16 n + 18446744073709551615) % 18446744073709551616 < t) :
    (usizeOfI16 n + 18446744073709551615) % 18446744073709551616 = t - 1 := by
  unfold usizeOfI16 at *
  omega

/-- parse_glyph_subtable ignores the incoming parser offset whenever it
succeeds: its first two steps look the table offset up in the directory
and seek there, so the rest of the parse depends only on the buffer and
the directory. -/
theorem parse_glyph_subtable_offset_free {buf : Buf} {dir : FontDirectoryTable}
    {g : GlyfSubtable} {p off2 : Nat} (q : Nat)
    (h : parse_glyph_subtable buf dir p = (POut.ok g, off2)) :
    parse_glyph_subtable buf dir q = (POut.ok g, off2) := by
  unfold parse_glyph_subtable at h ⊢
  cases hl : lookup_offset_for_tag TableTag.Glyf dir with
  | ok o =>
    rw [hl] at h
    simp only [liftE, pbind_ok_eq] at h ⊢
    unfold set_offset at h ⊢
    split at h
    case isTrue => simp [pbind_err_eq] at h
    case isFalse hc =>
      rw [if_neg hc]
      rw [pbind_ok_eq] at h ⊢
      exact h
  | err e =>
    rw [hl] at h
    simp [liftE, pbind_err_eq] at h
  | crash =>
    rw [hl] at h
    simp [liftE, pbind_crash_eq] at h

/-- Every glyph the glyf loop accumulates is the one parse_glyph_subtable
yields from offset zero (each iteration re-seeks to the same directory
offset, so all iterations parse the same bytes). -/
theorem parse_glyf_glyphs_mem {buf : Buf} {dir : FontDirectoryTable} :
    ∀ {n off l off2}, parse_glyf_glyphs buf dir n off = (POut.ok l, off2) →
      ∀ g ∈ l, (parse_glyph_subtable buf dir 0).fst = POut.ok g := by
  intro n
  induction n with
  | zero =>
    intro off l off2 h
    simp only [parse_glyf_glyphs, Prod.mk.injEq, POut.ok.injEq] at h
    intro g hg
    rw [← h.1] at hg
    simp at hg
  | succ n ih =>
    intro off l off2 h
    unfold parse_glyf_glyphs at h
    split at h
    case h_1 glyph o heq =>
      split at h
      case isTrue =>
        simp only [Prod.mk.injEq, POut.ok.injEq] at h
        intro g hg
        rw [← h.1] at hg
        simp at hg
      case isFalse =>
        split at h
        case h_1 l1 oo heq2 =>
          simp only [Prod.mk.injEq, POut.ok.injEq] at h
          intro g hg
          rw [← h.1] at hg
          cases hg with
          | head =>
            have := parse_glyph_subtable_offset_free 0 heq
            rw [this]
          | tail _ hm => exact ih heq2 g hm
        case h_2 => simp at h
        case h_3 => simp at h
    case h_2 => simp at h
    case h_3 => simp at h

/-- Claim C6: every byte-cursor read succeeds exactly when the bytes it
needs fit inside the buffer (position plus size at most buffer length),
advancing the position by the size read, and otherwise fails with an
OutOfRange error leaving the position unchanged; set_offset succeeds
exactly when the target is at most the buffer length (end-of-buffer
included) and otherwise fails with OutOfRange leaving the position
unchanged. -/
theorem c6_byte_cursor_bounds (buf : Buf) (off target : Nat) :
    (target ≤ buf.length → set_offset buf target off = (POut.ok (), target)) ∧
    (buf.length < target → set_offset buf target off = (POut.err err_seek, off)) ∧
    (off + 1 ≤ buf.length → read_be_u8 buf off = (POut.ok (byteAt buf off), off + 1)) ∧
    (buf.length < off + 1 → read_be_u8 buf off = (POut.err err_u8, off)) ∧
    (off + 2 ≤ buf.length → read_be_u16 buf off = (POut.ok (be16 buf off), off + 2)) ∧
    (buf.length < off + 2 → read_be_u16 buf off = (POut.err err_u16, off)) ∧
    (off + 4 ≤ buf.length → read_be_u32 buf off = (POut.ok (be32 buf off), off + 4)) ∧
    (buf.length < off + 4 → read_be_u32 buf off = (POut.err err_u32, off)) ∧
    (off + 2 ≤ buf.length → read_be_i16 buf off = (POut.ok (toSigned16 (be16 buf off)), off + 2)) ∧
    (buf.length < off + 2 → read_be_i16 buf off = (POut.err err_i16, off)) ∧
    (off + 256 ≤ buf.length →
      read_u8_array_256 buf off =
        (POut.ok ((List.range 256).map fun k => byteAt buf (off + k)), off + 256)) ∧
    (buf.length < off + 256 → read_u8_array_256 buf off = (POut.err err_u8_array, off)) ∧
    (off + 8 ≤ buf.length →
      read_be_i16_array_4 buf off =
        (POut.ok [toSigned16 (be16 buf off), toSigned16 (be16 buf (off + 2)),
                  toSigned16 (be16 buf (off + 4)), toSigned16 (be16 buf (off + 6))], off + 8)) ∧
    (buf.length < off + 8 → read_be_i16_array_4 buf off = (POut.err err_i16_array, off)) ∧
    err_seek.code = ErrorCode.OutOfRange ∧ err_u8.code = ErrorCode.OutOfRange ∧
    err_u16.code = ErrorCode.OutOfRange ∧ err_u32.code = ErrorCode.OutOfRange ∧
    err_i16.code = ErrorCode.OutOfRange ∧ err_u8_array.code = ErrorCode.OutOfRange ∧
    err_i16_array.code = ErrorCode.OutOfRange := by
  refine ⟨fun h => ?_, fun h => ?_, fun h => ?_, fun h => ?_, fun h => ?_, fun h => ?_,
    fun h => ?_, fun h => ?_, fun h => ?_, fun h => ?_, fun h => ?_, fun h => ?_,
    fun h => ?_, fun h => ?_, rfl, rfl, rfl, rfl, rfl, rfl, rfl⟩
  · rw [set_offset, if_neg (by omega)]
  · rw [set_offset, if_pos (by omega)]
  · rw [read_be_u8, if_pos (by omega)]
  · rw [read_be_u8, if_neg (by omega)]
  · rw [read_be_u16, if_pos (by omega)]
  · rw [read_be_u16, if_neg (by omega)]
  · rw [read_be_u32, if_pos (by omega)]
  · rw [read_be_u32, if_neg (by omega)]
  · rw [read_be_i16, if_pos (by omega)]
  · rw [read_be_i16, if_neg (by omega)]
  · rw [read_u8_array_256, if_pos (by omega)]
  · rw [read_u8_array_256, if_neg (by omega)]
  · rw [read_be_i16_array_4, if_pos (by omega)]
  · rw [read_be_i16_array_4, if_neg (by omega)]

/-- Witness for C6 at a concrete two-byte buffer: an in-bounds u16 read
and an out-of-bounds seek. -/
theorem c6_byte_cursor_bounds_witness :
    read_be_u16 [7, 1] 0 = (POut.ok 1793, 2) ∧
    set_offset [7, 1] 3 0 = (POut.err err_seek, 0) := by
  have h := c6_byte_cursor_bounds [7, 1] 0 3
  constructor
  · rw [h.2.2.2.2.1 (by decide)]; decide
  · rw [h.2.1 (by decide)]

/-- Claim C7: find_table returns the recorded offset of a matching
directory record when the tag is present, and fails with NotFound when no
record carries the tag. -/
theorem c7_find_table (dir : FontDirectoryTable) (tag : TableTag) :
    ((∃ r ∈ dir.table_directory_subtables, r.tag = tag.toU32) →
      ∃ r ∈ dir.table_directory_subtables, r.tag = tag.toU32 ∧
        lookup_offset_for_tag tag dir = POut.ok r.offset) ∧
    ((∀ r ∈ dir.table_directory_subtables, r.tag ≠ tag.toU32) →
      lookup_offset_for_tag tag dir = POut.err err_table_not_found ∧
      err_table_not_found.code = ErrorCode.NotFound) := by
  unfold lookup_offset_for_tag
  cases hf : dir.table_directory_subtables.find? (fun dir => dir.tag == tag.toU32) with
  | some r =>
    have hmem := List.mem_of_find?_eq_some hf
    have htag : r.tag = tag.toU32 := by simpa using List.find?_some hf
    constructor
    · intro _
      exact ⟨r, hmem, htag, rfl⟩
    · intro hall
      exact absurd htag (hall r hmem)
  | none =>
    constructor
    · rintro ⟨r, hr, ht⟩
      have := List.find?_eq_none.mp hf r hr
      simp [ht] at this
    · intro _
      exact ⟨rfl, rfl⟩

/-- Witness for C7: the glyf lookup in a directory holding a glyf record
at offset 77 and in one without a glyf record. -/
theorem c7_find_table_witness :
    lookup_offset_for_tag TableTag.Glyf dirWithGlyf = POut.ok 77 ∧
    lookup_offset_for_tag TableTag.Glyf dirWithoutGlyf = POut.err err_table_not_found := by
  constructor
  · obtain ⟨r, hr, ht, he⟩ :=
      (c7_find_table dirWithGlyf TableTag.Glyf).1 ⟨⟨1735162214, 5, 77, 10⟩, by decide, by decide⟩
    have : r = ⟨1751474532, 0, 12, 0⟩ ∨ r = ⟨1735162214, 5, 77, 10⟩ := by
      simpa [dirWithGlyf] using hr
    rcases this with h | h
    · rw [h] at ht; exact absurd ht (by decide)
    · rw [h] at he; exact he
  · exact ((c7_find_table dirWithoutGlyf TableTag.Glyf).2 (by decide)).1

/-- Claim C2 (code bug evaluation): a cmap table whose encoding record
points at a subtable of format 6 makes parse_cmap_table hit the todo
macro, a panic that aborts the process, instead of returning an
Unimplemented error. -/
theorem c2_unsupported_cmap_format_crashes :
    (parse_cmap_table c2buf dirCmapAtZero 0).fst = POut.crash := by decide

/-- Claim C3 (code bug evaluation): a glyph whose number_of_contours is
minus one makes the glyf decoder panic while computing the point count
(it indexes the empty end_pts_of_contours vector), so parse_glyf_table
aborts instead of returning the truncated glyph list. -/
theorem c3_compound_glyph_crashes :
    (parse_glyf_table c3buf dirGlyfAtZero 1 0).fst = POut.crash := by decide

/-- Claim C5 (code bug evaluation): decoding the format-4 subtable of
c5buf stores 99 as the length field although the big-endian u16 at
subtable offset plus two (buffer position 14) is 2; the value 2 lands in
seg_count_x2, because the decoder reads seg_count_x2 first and reads
length and language only after the glyph_id_array. -/
theorem c5_format_four_read_order :
    parse_cmap_table c5buf dirCmapAtZero 0 =
      (POut.ok ⟨0, 1, [⟨0, 0, 12⟩], none, some c5table⟩, 38) ∧
    c5table.length = 99 ∧ c5table.seg_count_x2 = 2 ∧ be16 c5buf 14 = 2 := by
  refine ⟨by decide, by decide, by decide, by decide⟩

/-- Claim C10 (code bug evaluation): when the file cannot be opened or
read, parse_from_file fails with the error produced by the From impl for
std::io::Error, whose code is Unknown, not InvalidArgument. -/
theorem c10_io_error_code_unknown :
    parse_from_file (fun _ => none) "missing.ttf" = POut.err err_io_unknown ∧
    err_io_unknown.code = ErrorCode.Unknown := ⟨rfl, rfl⟩

/-- Claim C8: whenever parse_head_table succeeds and the directory lookup
of the head tag yields offset o, the parsed units_per_em equals the
big-endian u16 stored at buffer bytes o+18 and o+19. -/
theorem c8_head_units_per_em {buf : Buf} {dir : FontDirectoryTable} {off : Nat}
    {t : HeadTable} {off2 o : Nat}
    (h : parse_head_table buf dir off = (POut.ok t, off2))
    (ho : lookup_offset_for_tag TableTag.Head dir = POut.ok o) :
    t.units_per_em = be16 buf (o + 18) := by
  unfold parse_head_table at h
  rw [ho] at h
  simp only [liftE, pbind_ok_eq] at h
  obtain ⟨u, q0, hs, h⟩ := pbind_ok h
  obtain ⟨hq0, _⟩ := set_offset_ok hs
  obtain ⟨v1, q1, h1, h⟩ := pbind_ok h
  obtain ⟨_, hq1, _⟩ := read_be_u32_ok h1
  obtain ⟨v2, q2, h2, h⟩ := pbind_ok h
  obtain ⟨_, hq2, _⟩ := read_be_u32_ok h2
  obtain ⟨v3, q3, h3, h⟩ := pbind_ok h
  obtain ⟨_, hq3, _⟩ := read_be_u32_ok h3
  obtain ⟨v4, q4, h4, h⟩ := pbind_ok h
  obtain ⟨_, hq4, _⟩ := read_be_u32_ok h4
  obtain ⟨v5, q5, h5, h⟩ := pbind_ok h
  obtain ⟨_, hq5, _⟩ := read_be_u16_ok h5
  obtain ⟨v6, q6, h6, h⟩ := pbind_ok h
  obtain ⟨hv6, hq6, _⟩ := read_be_u16_ok h6
  obtain ⟨v7, p7, h7, h⟩ := pbind_ok h
  obtain ⟨v8, p8, h8, h⟩ := pbind_ok h
  obtain ⟨v9, p9, h9, h⟩ := pbind_ok h
  obtain ⟨v10, p10, h10, h⟩ := pbind_ok h
  obtain ⟨v11, p11, h11, h⟩ := pbind_ok h
  obtain ⟨v12, p12, h12, h⟩ := pbind_ok h
  obtain ⟨v13, p13, h13, h⟩ := pbind_ok h
  obtain ⟨v14, p14, h14, h⟩ := pbind_ok h
  obtain ⟨v15, p15, h15, h⟩ := pbind_ok h
  obtain ⟨v16, p16, h16, h⟩ := pbind_ok h
  obtain ⟨v17, p17, h17, h⟩ := pbind_ok h
  simp only [Prod.mk.injEq, POut.ok.injEq] at h
  have hv : v6 = be16 buf (o + 18) := by rw [hv6]; congr 1; omega
  rw [← h.1]
  exact hv

/-- Witness for C8: the head table parsed from c8buf carries the literal
units_per_em written at bytes 18 and 19. -/
theorem c8_head_units_per_em_witness : c8head.units_per_em = be16 c8buf 18 :=
  @c8_head_units_per_em c8buf dirHeadAtZero 0 c8head 46 0 (by decide) (by decide)

theorem set_offset_run {buf : Buf} {target off : Nat} (h : target ≤ buf.length) :
    set_offset buf target off = (POut.ok (), target) := by
  rw [set_offset, if_neg (by omega)]

theorem read_be_u8_run {buf : Buf} {off : Nat} (h : off + 1 ≤ buf.length) :
    read_be_u8 buf off = (POut.ok (byteAt buf off), off + 1) := by
  rw [read_be_u8, if_pos h]

theorem read_be_u16_run {buf : Buf} {off : Nat} (h : off + 2 ≤ buf.length) :
    read_be_u16 buf off = (POut.ok (be16 buf off), off + 2) := by
  rw [read_be_u16, if_pos h]

theorem read_be_i16_run {buf : Buf} {off : Nat} (h : off + 2 ≤ buf.length) :
    read_be_i16 buf off = (POut.ok (toSigned16 (be16 buf off)), off + 2) := by
  rw [read_be_i16, if_pos h]

/-- Claim C9: a glyph whose number_of_contours field is zero drives the
decoder into the unguarded point-count indexing of the empty
end_pts_of_contours vector, a panic, provided the header and instruction
bytes themselves fit in the buffer (so that no read fails first). -/
theorem c9_zero_contours_crash (buf : Buf) (dir : FontDirectoryTable) (off o : Nat)
    (ho : lookup_offset_for_tag TableTag.Glyf dir = POut.ok o)
    (h0 : be16 buf o = 0)
    (hlen : o + 12 + be16 buf (o + 10) ≤ buf.length) :
    (parse_glyph_subtable buf dir off).fst = POut.crash := by
  have ht0 : toSigned16 0 = 0 := by decide
  unfold parse_glyph_subtable
  rw [ho]
  simp only [liftE, pbind_ok_eq]
  rw [set_offset_run (by omega)]
  simp only [pbind_ok_eq]
  rw [read_be_i16_run (by omega)]
  simp only [pbind_ok_eq]
  rw [h0, ht0]
  rw [read_be_i16_run (by omega)]
  simp only [pbind_ok_eq]
  rw [read_be_i16_run (by omega)]
  simp only [pbind_ok_eq]
  rw [read_be_i16_run (by omega)]
  simp only [pbind_ok_eq]
  rw [read_be_i16_run (by omega)]
  simp only [pbind_ok_eq]
  simp only [Int.toNat_zero, readCount, pbind_ok_eq]
  rw [read_be_u16_run (by omega)]
  simp only [pbind_ok_eq]
  have e1 : o + 2 + 2 + 2 + 2 + 2 = o + 10 := by omega
  rw [e1]
  rw [readCount_u8_all _ _ (by omega)]
  simp only [pbind_ok_eq]
  simp

/-- Witness for C9: twelve zero bytes (contour count zero, zero
instruction bytes) crash the glyph decoder. -/
theorem c9_zero_contours_crash_witness :
    (parse_glyph_subtable c9buf dirGlyfAtZero 0).fst = POut.crash :=
  c9_zero_contours_crash c9buf dirGlyfAtZero 0 0 (by decide) (by decide) (by decide)

/-- Claim C1 (amended): for every successfully decoded glyph the expanded
flags sequence has length at least the point count (last contour end plus
one, as the u16 computation wraps); the expansion loop stops as soon as
the length reaches or passes the point count, so a repeat run crossing
the boundary makes the length exceed it. -/
theorem c1_flags_length_lower_bound {buf : Buf} {dir : FontDirectoryTable}
    {off : Nat} {g : GlyfSubtable} {off2 : Nat}
    (h : parse_glyph_subtable buf dir off = (POut.ok g, off2)) :
    (g.end_pts_of_contours.getLastD 0 + 1) % 65536 ≤ g.flags.length := by
  unfold parse_glyph_subtable at h
  cases hl : lookup_offset_for_tag TableTag.Glyf dir with
  | ok o =>
    rw [hl] at h
    simp only [liftE, pbind_ok_eq] at h
    obtain ⟨u, q0, hs, h⟩ := pbind_ok h
    obtain ⟨v1, q1, h1, h⟩ := pbind_ok h
    obtain ⟨hv1, hq1, hb1⟩ := read_be_i16_ok h1
    obtain ⟨v2, q2, h2, h⟩ := pbind_ok h
    obtain ⟨v3, q3, h3, h⟩ := pbind_ok h
    obtain ⟨v4, q4, h4, h⟩ := pbind_ok h
    obtain ⟨v5, q5, h5, h⟩ := pbind_ok h
    obtain ⟨eps, q6, h6, h⟩ := pbind_ok h
    have hlen6 := readCount_length h6
    obtain ⟨il, q7, h7, h⟩ := pbind_ok h
    obtain ⟨ins, q8, h8, h⟩ := pbind_ok h
    cases hget : eps.get? ((usizeOfI16 v1 + 18446744073709551615) % 18446744073709551616) with
    | none =>
      rw [hget] at h
      simp at h
    | some last =>
      rw [hget] at h
      obtain ⟨fs, q9, h9, h⟩ := pbind_ok h
      have hfl := parse_flags_length h9
      obtain ⟨xs, q10, h10, h⟩ := pbind_ok h
      obtain ⟨ys, q11, h11, h⟩ := pbind_ok h
      simp only [Prod.mk.injEq, POut.ok.injEq] at h
      obtain ⟨hlt, -⟩ := List.get?_eq_some.mp hget
      have hrange : -32768 ≤ v1 ∧ v1 < 32768 := by
        rw [hv1]; exact toSigned16_range (be16_lt buf q0)
      have hub : eps.length ≤ 32767 := by
        have := hrange.2
        omega
      have hidx := glyf_index_last hlen6.symm hub hlt
      rw [hidx] at hget
      have hlast := getLastD_of_get_last 0 hget
      rw [← h.1]
      show (eps.getLastD 0 + 1) % 65536 ≤ fs.length
      rw [hlast]
      omega
  | err e =>
    rw [hl] at h
    simp [liftE, pbind_err_eq] at h
  | crash =>
    rw [hl] at h
    simp [liftE, pbind_crash_eq] at h

/-- Counterexample to claim C1 as stated: on c1buf the glyph decodes
successfully with four flags for a point count of two, because the repeat
run of three crosses the point-count boundary. -/
theorem c1_flags_length_counterexample :
    ¬ (∀ g off2, parse_glyph_subtable c1buf dirGlyfAtZero 0 = (POut.ok g, off2) →
        g.flags.length = (g.end_pts_of_contours.getLastD 0 + 1) % 65536) := by
  intro hclaim
  have := hclaim c1glyph 32 (by decide)
  exact absurd this (by decide)

/-- Witness for the amended C1 on the concrete glyph of c1buf. -/
theorem c1_flags_length_lower_bound_witness :
    (c1glyph.end_pts_of_contours.getLastD 0 + 1) % 65536 ≤ c1glyph.flags.length :=
  @c1_flags_length_lower_bound c1buf dirGlyfAtZero 0 c1glyph 32 (by decide)

/-- Claim C4: every iteration of the glyf decoder re-seeks to the
directory-recorded glyf offset before reading, so whenever parse_from_file
succeeds all entries of the returned glyph list are equal (the first glyph
reparsed). -/
theorem c4_all_glyphs_equal (fs : FileSystem) (path : String) (font : Font)
    (h : parse_from_file fs path = POut.ok font) :
    ∀ g1 ∈ font.glyf_table.glyphs, ∀ g2 ∈ font.glyf_table.glyphs, g1 = g2 := by
  unfold parse_from_file at h
  cases hb : read_file_to_byte_buffer fs path with
  | ok buffer =>
    rw [hb] at h
    obtain ⟨fdt, o1, h1, h⟩ := pbind_fst_ok h
    obtain ⟨cm, o2, h2, h⟩ := pbind_fst_ok h
    obtain ⟨hd, o3, h3, h⟩ := pbind_fst_ok h
    obtain ⟨hh, o4, h4, h⟩ := pbind_fst_ok h
    obtain ⟨mx, o5, h5, h⟩ := pbind_fst_ok h
    obtain ⟨gt, o6, h6, h⟩ := pbind_fst_ok h
    simp only [POut.ok.injEq] at h
    unfold parse_glyf_table at h6
    obtain ⟨gl, o7, h7, hret⟩ := pbind_ok h6
    simp only [Prod.mk.injEq, POut.ok.injEq] at hret
    intro g1 hg1 g2 hg2
    have hgl : font.glyf_table.glyphs = gl := by rw [← h, ← hret.1]
    rw [hgl] at hg1 hg2
    have e1 := parse_glyf_glyphs_mem h7 g1 hg1
    have e2 := parse_glyf_glyphs_mem h7 g2 hg2
    have h12 := e1.symm.trans e2
    simp only [POut.ok.injEq] at h12
    exact h12
  | err e =>
    rw [hb] at h
    simp at h
  | crash =>
    rw [hb] at h
    simp at h

set_option maxRecDepth 40000

/-- Witness for C4: in the two-glyph font of c4buf both returned glyphs
are the same reparsed first glyph. -/
theorem c4_all_glyphs_equal_witness :
    c4font.glyf_table.glyphs.getD 0 default_glyph =
      c4font.glyf_table.glyphs.getD 1 default_glyph :=
  c4_all_glyphs_equal c4fs "font.ttf" c4font (by decide)
    (c4font.glyf_table.glyphs.getD 0 default_glyph) (by decide)
    (c4font.glyf_table.glyphs.getD 1 default_glyph) (by decide)
